import Mathlib

/-!
Verification of the FastAPI backend in `main.py`: a small HTTP API with two
static greeting routes, a database diagnostics route, and a route that builds
a fixed PowerPoint presentation (via python-pptx) and streams it back.

The data model below is a shallow embedding of the python-pptx objects the
source manipulates (presentation = ordered list of slides; slide = layout,
title text, optional body placeholder text frame, added text boxes; text
frame = paragraphs; paragraph = runs, indent level, alignment, paragraph
font), plus `BytesIO` as a byte list with a position, the process
environment, and the optional `database` module import used by `/test`.

The wall clock (`datetime.now().strftime('%d %B %Y')`) is external input; the
assembler is therefore parameterised by the already-formatted date string
`now`.
-/

/-- EMU per point: python-pptx `Pt(n)` is the length `n` points stored in
English Metric Units (1 pt = 12700 EMU). -/
def Pt (n : Nat) : Nat := n * 12700

/-- EMU for `h` hundredths of an inch: python-pptx `Inches(x)` stores
`x * 914400` EMU (the library truncates the floating product; the possible
1-EMU rounding difference is irrelevant to every claim, which never compares
coordinates numerically). `Inches(0.7)` is embedded as `Inches100 70`. -/
def Inches100 (h : Nat) : Nat := h * 9144

/-- Paragraph alignment values used by the source (`PP_ALIGN.LEFT`);
`CENTER` is included to state the centring claim about the closing slide. -/
inductive PP_ALIGN where
  | LEFT
  | CENTER
deriving DecidableEq

/-- Font settings (`run.font` / `paragraph.font`): only the attributes the
source assigns (`bold`, `size`); `none` = inherit. Size in EMU (`Pt`). -/
structure Font where
  bold : Option Bool := none
  size : Option Nat := none
deriving DecidableEq

/-- A text run inside a paragraph. -/
structure Run where
  text : String := ""
  font : Font := {}
deriving DecidableEq

/-- A paragraph of a text frame: runs, indent `level`, `alignment`, and the
paragraph-level `font`. A fresh paragraph is empty at level 0. -/
structure Paragraph where
  runs : List Run := []
  level : Nat := 0
  alignment : Option PP_ALIGN := none
  font : Font := {}
deriving DecidableEq

/-- The visible text of a paragraph: concatenation of its runs' texts
(python-pptx `_Paragraph.text` getter). -/
def Paragraph.text (p : Paragraph) : String :=
  String.join (p.runs.map Run.text)

/-- `p.text = s` setter: replaces the paragraph's runs with a single run
holding `s` (none of the source's strings contain line breaks), keeping the
paragraph's other properties. -/
def Paragraph.setText (p : Paragraph) (s : String) : Paragraph :=
  { p with runs := [{ text := s }] }

/-- A text frame: a non-empty list of paragraphs (a fresh frame has one empty
paragraph) and the `word_wrap` flag. -/
structure TextFrame where
  paragraphs : List Paragraph := [{}]
  word_wrap : Option Bool := none
deriving DecidableEq

/-- `text_frame.clear()`: drop all but the first paragraph and remove that
paragraph's content (runs), keeping its formatting. -/
def TextFrame.clear (tf : TextFrame) : TextFrame :=
  { tf with paragraphs := [ match tf.paragraphs with
      | [] => {}
      | p :: _ => { p with runs := [] } ] }

/-- A text box added with `slide.shapes.add_textbox(left, top, width,
height)`; coordinates in EMU. Its fresh text frame has one empty paragraph. -/
structure TextBox where
  left : Nat
  top : Nat
  width : Nat
  height : Nat
  tf : TextFrame := {}
deriving DecidableEq

/-- The three slide layouts the source takes from `prs.slide_layouts`:
index 0 (title), index 1 (title and content), index 5 (title only). -/
inductive LayoutKind where
  | titleLayout
  | titleAndContent
  | titleOnly
deriving DecidableEq

/-- The `prs.slide_layouts` index of a layout, as used by the source. -/
def layoutTag : LayoutKind → Nat
  | .titleLayout => 0
  | .titleAndContent => 1
  | .titleOnly => 5

/-- A slide: its layout, the text assigned to the title placeholder
(`slide.shapes.title.text = ...`), the contents of placeholder index 1 when
the layout has one (subtitle for layout 0, content body for layout 1), and
the text boxes added by `add_textbox` in insertion order. -/
structure Slide where
  layout : LayoutKind
  title : String := ""
  body : Option TextFrame := none
  textboxes : List TextBox := []
deriving DecidableEq

/-! ### Slide builders (`main.py` lines 67-114) -/

/-- `_add_title_slide` (lines 67-71): append a layout-0 slide, set the title
placeholder and the subtitle placeholder (`slide.placeholders[1].text`). -/
def _add_title_slide (prs : List Slide) (title : String) (subtitle : String) : List Slide :=
  prs ++ [{ layout := .titleLayout,
            title := title,
            body := some { paragraphs := [Paragraph.setText {} subtitle] } }]

/-- The paragraph produced for one bullet in `_add_bullets_slide`:
`p.text = b; p.level = 0` applied to a fresh or appended paragraph. -/
def bulletPara (b : String) : Paragraph :=
  { runs := [{ text := b }], level := 0 }

/-- One iteration of the `for i, b in enumerate(bullets)` loop of
`_add_bullets_slide` (lines 80-86): at `i = 0` reuse `tf.paragraphs[0]`,
otherwise `tf.add_paragraph()`; then `p.text = b; p.level = 0`. -/
def setBulletAt (tf : TextFrame) (i : Nat) (b : String) : TextFrame :=
  if i == 0 then
    { tf with paragraphs := match tf.paragraphs with
        | [] => [bulletPara b]
        | p :: rest => { p with runs := [{ text := b }], level := 0 } :: rest }
  else
    { tf with paragraphs := tf.paragraphs ++ [bulletPara b] }

/-- The whole enumerate loop of `_add_bullets_slide`, starting at index `i`. -/
def addBulletsFrom (tf : TextFrame) (i : Nat) : List String → TextFrame
  | [] => tf
  | b :: bs => addBulletsFrom (setBulletAt tf i b) (i + 1) bs

/-- `_add_bullets_slide` (lines 74-86): append a layout-1 slide, set its
title, `tf.clear()` the content placeholder, then write one paragraph per
bullet (first bullet reuses the cleared paragraph). -/
def _add_bullets_slide (prs : List Slide) (title : String) (bullets : List String) : List Slide :=
  let tf : TextFrame := {}
  let tf := tf.clear
  let tf := addBulletsFrom tf 0 bullets
  prs ++ [{ layout := .titleAndContent, title := title, body := some tf }]

/-- The paragraph produced for one item of a column in
`_add_two_column_slide` (lines 110-114): `pi.text = "• " ++ it;
pi.level = 0; pi.font.size = Pt(16)`. -/
def colItemPara (it : String) : Paragraph :=
  { runs := [{ text := "• " ++ it }], level := 0, font := { size := some (Pt 16) } }

/-- The `for it in items` loop of `_add_two_column_slide`: each item appends
one paragraph. -/
def addColItems (tf : TextFrame) : List String → TextFrame
  | [] => tf
  | it :: items => addColItems { tf with paragraphs := tf.paragraphs ++ [colItemPara it] } items

/-- The heading update of a column box's first paragraph (lines 103-108):
`run = p.add_run(); run.text = title_text; run.font.bold = True;
run.font.size = Pt(20); p.alignment = PP_ALIGN.LEFT`. -/
def headParaUpdate (p : Paragraph) (title_text : String) : Paragraph :=
  { p with runs := p.runs ++ [{ text := title_text,
                                font := { bold := some true, size := some (Pt 20) } }],
           alignment := some PP_ALIGN.LEFT }

/-- Filling one column box's text frame (lines 101-114): `word_wrap = True`,
heading run in `tf.paragraphs[0]`, then one bullet-prefixed paragraph per
item. -/
def fillColumnTF (tf : TextFrame) (title_text : String) (items : List String) : TextFrame :=
  let tf := { tf with word_wrap := some true }
  let tf := { tf with paragraphs := match tf.paragraphs with
      | [] => [headParaUpdate {} title_text]
      | p :: rest => headParaUpdate p title_text :: rest }
  addColItems tf items

/-- `_add_two_column_slide` (lines 89-114): append a layout-5 slide with a
title and two text boxes at fixed positions, each filled with a bold
20-point left-aligned heading followed by one "• "-prefixed 16-point line
per item. -/
def _add_two_column_slide (prs : List Slide) (title : String)
    (left_title : String) (left_items : List String)
    (right_title : String) (right_items : List String) : List Slide :=
  let left_box : TextBox :=
    { left := Inches100 70, top := Inches100 160, width := Inches100 430, height := Inches100 500 }
  let right_box : TextBox :=
    { left := Inches100 520, top := Inches100 160, width := Inches100 430, height := Inches100 500 }
  let left_box := { left_box with tf := fillColumnTF left_box.tf left_title left_items }
  let right_box := { right_box with tf := fillColumnTF right_box.tf right_title right_items }
  prs ++ [{ layout := .titleOnly, title := title, textboxes := [left_box, right_box] }]

/-! ### The presentation assembler (`main.py` lines 117-240) -/

/-- The first eight slides built by `build_ipb_ui_presentation`
(lines 121-225): everything before the closing slide; none of it depends on
any input. -/
def ipb_ui_slides_fixed : List Slide :=
  let prs : List Slide := []
  -- Title (lines 121-125)
  let prs := _add_title_slide prs
    "Profil IPB University & Universitas Indonesia"
    "Ringkasan jalur masuk dan fakultas (disusun otomatis)"
  -- IPB Overview (lines 128-139)
  let prs := _add_bullets_slide prs "IPB University – Ringkasan"
    [ "Perguruan tinggi negeri unggul berlokasi di Bogor, Jawa Barat",
      "Bertransformasi menjadi Techno-Socio Entrepreneurial University",
      "Keunggulan: biosains tropika, pertanian, kelautan, dan teknologi terkait",
      "Sering masuk Top 50 dunia untuk Pertanian & Kehutanan (QS WUR)",
      "Akreditasi: Unggul; Program: Vokasi hingga Pascasarjana",
      "Kampus utama di Dramaga; inovasi untuk kemandirian pangan & keberlanjutan" ]
  -- IPB Jalur Masuk (lines 142-151)
  let prs := _add_bullets_slide prs "IPB – Jalur Masuk"
    [ "SNBP",
      "SNBT",
      "AFIRMASI DIKTI",
      "MANDIRI (Ketua OSIS, Talenta, SM-IPB, BUD, Kelas Internasional)" ]
  -- IPB Fakultas (lines 154-167)
  let ipb_fakultas :=
    [ "Fakultas Pertanian",
      "Fakultas Perikanan dan Ilmu Kelautan (FPIK)",
      "Fakultas Peternakan (FAPET)",
      "Fakultas Kehutanan dan Lingkungan (FKL)",
      "Fakultas Teknologi Pertanian (FATETA)",
      "Fakultas Matematika dan Ilmu Pengetahuan Alam (FMIPA)",
      "Fakultas Ekonomi dan Manajemen (FEM)",
      "Fakultas Ekologi Manusia (FEMA)",
      "Sekolah Kedokteran Hewan dan Biomedis (SKHB)",
      "Sekolah Bisnis (SB)",
      "Sekolah Vokasi (SV)" ]
  let prs := _add_bullets_slide prs "IPB – Fakultas & Sekolah" ipb_fakultas
  -- UI Overview (lines 170-181)
  let prs := _add_bullets_slide prs "Universitas Indonesia – Ringkasan"
    [ "PTN-BH tertua dan prestisius di Indonesia",
      "Kampus utama Green Campus di Depok; Kampus Salemba di Jakarta",
      "Kampus komprehensif dan multikultural, program Vokasi hingga Doktor",
      "14 Fakultas mencakup Kesehatan, Saintek, dan Soshum",
      "Peringkat teratas nasional dengan pengakuan global",
      "Fokus: riset, inovasi, pengabdian masyarakat; lulusan berdaya saing tinggi" ]
  -- UI Jalur Masuk (lines 184-195)
  let prs := _add_bullets_slide prs "UI – Jalur Masuk"
    [ "SNBP",
      "SNBT",
      "SIMAK UI",
      "Talent Scouting",
      "PPKB",
      "Seleksi Jalur Prestasi" ]
  -- UI Fakultas by rumpun (lines 198-225)
  let kesehatan :=
    [ "Fakultas Kedokteran (FK)",
      "Fakultas Kedokteran Gigi (FKG)",
      "Fakultas Ilmu Keperawatan (FIK)",
      "Fakultas Kesehatan Masyarakat (FKM)",
      "Fakultas Farmasi (FF)" ]
  let saintek :=
    [ "Fakultas Teknik (FT)",
      "Fakultas Matematika dan Ilmu Pengetahuan Alam (FMIPA)",
      "Fakultas Ilmu Komputer (Fasilkom)" ]
  let soshum :=
    [ "Fakultas Hukum (FH)",
      "Fakultas Ekonomi dan Bisnis (FEB)",
      "Fakultas Ilmu Pengetahuan Budaya (FIB)",
      "Fakultas Psikologi (FPsi)",
      "Fakultas Ilmu Sosial dan Ilmu Politik (FISIP)",
      "Fakultas Ilmu Administrasi (FIA)" ]
  let lainnya :=
    [ "Program Pendidikan Vokasi",
      "Sekolah Ilmu Lingkungan (SIL)",
      "Sekolah Kajian Stratejik dan Global (SKSG)" ]
  let prs := _add_two_column_slide prs "UI – Fakultas (Kesehatan & Saintek)"
    "Rumpun Kesehatan" kesehatan "Rumpun Saintek" saintek
  let prs := _add_two_column_slide prs "UI – Fakultas (Soshum & Program Lain)"
    "Rumpun Soshum" soshum "Program/Sekolah Lain" lainnya
  prs

/-- The closing slide (lines 227-235): layout 5, title "Terima kasih", one
text box whose first paragraph gets the date line `f"Disusun otomatis pada
{...}"` and an 18-point paragraph font. `now` is the already-formatted date
string `datetime.now().strftime('%d %B %Y')` (external input). -/
def closingSlide (now : String) : Slide :=
  let tf : TextFrame := {}
  let p : Paragraph := {}
  let p := p.setText ("Disusun otomatis pada " ++ now)
  let p := { p with font := { p.font with size := some (Pt 18) } }
  let tf := { tf with paragraphs := [p] }
  let box : TextBox :=
    { left := Inches100 120, top := Inches100 220, width := Inches100 800, height := Inches100 300,
      tf := tf }
  { layout := .titleOnly, title := "Terima kasih", textboxes := [box] }

/-- The full slide sequence built by `build_ipb_ui_presentation`
(lines 118-235): the eight fixed slides followed by the closing slide. -/
def ipb_ui_slides (now : String) : List Slide :=
  ipb_ui_slides_fixed ++ [closingSlide now]

/-! ### Serialization and `BytesIO` (`main.py` lines 237-240)

The presentation library's `prs.save(...)` is third-party code not in this
repository; it is modelled from the spec. -/

/-- The code points of a string, as the model's bytes. -/
def strBytes (s : String) : List Nat := s.toList.map Char.toNat

/-- Modelled from the spec: the binary package signature of the presentation
format (a ZIP local-file-header signature, bytes "PK\x03\x04") which opens
every serialized document. -/
def pptxSignature : List Nat := [0x50, 0x4B, 0x03, 0x04]

/-- Modelled from the spec: serialization of one run — its text, embedded
verbatim, followed by a terminator tag. -/
def serializeRun (r : Run) : List Nat := strBytes r.text ++ [1]

/-- Modelled from the spec: serialization of one paragraph — its runs in
order, followed by a terminator tag. -/
def serializeParagraph (p : Paragraph) : List Nat :=
  (p.runs.map serializeRun).flatten ++ [2]

/-- Modelled from the spec: serialization of one text frame — its paragraphs
in order, followed by a terminator tag. -/
def serializeTextFrame (tf : TextFrame) : List Nat :=
  (tf.paragraphs.map serializeParagraph).flatten ++ [3]

/-- Modelled from the spec: serialization of one slide — a slide tag, the
layout index, the title text, the body placeholder when present, then the
text boxes in insertion order. -/
def serializeSlide (s : Slide) : List Nat :=
  [4, layoutTag s.layout] ++ strBytes s.title ++ [5]
    ++ (match s.body with
        | none => []
        | some tf => serializeTextFrame tf)
    ++ (s.textboxes.map (fun b => [6] ++ serializeTextFrame b.tf)).flatten

/-- Modelled from the spec: `prs.save` output for a whole document — the
package signature followed by every slide in order. The spec describes the
output only as a deterministic binary package whose first bytes are the
format signature and which embeds the document's static text; this model
keeps exactly those properties. -/
def serializePresentation (slides : List Slide) : List Nat :=
  pptxSignature ++ (slides.map serializeSlide).flatten

/-- `io.BytesIO`: an in-memory byte buffer with a read/write position. -/
structure BytesIO where
  data : List Nat := []
  pos : Nat := 0
deriving DecidableEq

/-- Writing to a `BytesIO` appends and advances the position (after
`prs.save(bio)` the position sits at the end of the buffer, which is why the
source seeks back to 0). -/
def BytesIO.write (b : BytesIO) (bs : List Nat) : BytesIO :=
  { data := b.data ++ bs, pos := b.pos + bs.length }

/-- `bio.seek(n)`. -/
def BytesIO.seek (b : BytesIO) (n : Nat) : BytesIO :=
  { b with pos := n }

/-- `build_ipb_ui_presentation` (lines 117-240): build the slide deck, save
it into a fresh `BytesIO`, seek to 0 and return the buffer. -/
def build_ipb_ui_presentation (now : String) : BytesIO :=
  let prs := ipb_ui_slides now
  let bio : BytesIO := {}
  let bio := bio.write (serializePresentation prs)
  bio.seek 0

/-! ### The diagnostics handler `/test` (`main.py` lines 31-64) -/

/-- The environment variables the handler reads: `os.getenv` yields `none`
when the variable is absent. -/
structure OsEnv where
  DATABASE_URL : Option String := none
  DATABASE_NAME : Option String := none

/-- Python truthiness of an `os.getenv` result: truthy iff present and
non-empty. -/
def envTruthy : Option String → Bool
  | none => false
  | some s => !(s == "")

/-- The observable behaviour of `from database import db` and the handle's
subsequent use: the import raises `ImportError` (module missing), raises
some other exception, binds `db = None` (uninitialized), or yields a handle
with an optional `name` attribute whose `list_collection_names()` either
returns a list or raises with a message. -/
inductive DbImport where
  | importError
  | importOtherError (msg : String)
  | dbNone
  | dbHandle (name : Option String) (listResult : Except String (List String))

/-- The JSON object returned by `test_database`; `database_url` and
`database_name` start as `None` and are strings once assigned. -/
structure TestDbResponse where
  backend : String
  database : String
  database_url : Option String
  database_name : Option String
  connection_status : String
  collections : List String

/-- `test_database` (lines 31-64): build the diagnostics report. Every
failure of the optional database import or of `list_collection_names` is
mapped to a status string (`str(e)[:50]` keeps the first 50 characters);
the two env-var fields are overwritten unconditionally at the end. -/
def test_database (env : OsEnv) (dbi : DbImport) : TestDbResponse :=
  let r : TestDbResponse :=
    { backend := "✅ Running",
      database := "❌ Not Available",
      database_url := none,
      database_name := none,
      connection_status := "Not Connected",
      collections := [] }
  let r := match dbi with
    | .importError =>
        { r with database := "❌ Database module not found (run enable-database first)" }
    | .importOtherError e =>
        { r with database := "❌ Error: " ++ e.take 50 }
    | .dbNone =>
        { r with database := "⚠️  Available but not initialized" }
    | .dbHandle name listResult =>
        let r := { r with
          database := "✅ Available",
          database_url := some "✅ Configured",
          database_name := some (match name with
            | some n => n
            | none => "✅ Connected"),
          connection_status := "Connected" }
        match listResult with
        | .ok cols =>
            { r with collections := cols.take 10,
                     database := "✅ Connected & Working" }
        | .error e =>
            { r with database := "⚠️  Connected but Error: " ++ e.take 50 }
  { r with
    database_url := some (if envTruthy env.DATABASE_URL then "✅ Set" else "❌ Not Set"),
    database_name := some (if envTruthy env.DATABASE_NAME then "✅ Set" else "❌ Not Set") }

/-! ### HTTP layer (`main.py` lines 23-29 and 243-253) -/

/-- An incoming HTTP request's inputs that a handler could observe; the
greeting handlers declare no parameters, so FastAPI ignores all of these. -/
structure Request where
  queryParams : List (String × String) := []
  headers : List (String × String) := []

/-- `read_root` (lines 23-25): the route handler takes no parameters and
returns a fixed dict, serialized as JSON with HTTP status 200. -/
def read_root (_req : Request) : Nat × List (String × String) :=
  (200, [("message", "Hello from FastAPI Backend!")])

/-- `hello` (lines 27-29): fixed dict, JSON, HTTP 200. -/
def hello (_req : Request) : Nat × List (String × String) :=
  (200, [("message", "Hello from the backend API!")])

/-- `/test` route: `test_database` returns a dict, which FastAPI serializes
with HTTP status 200. -/
def test_database_route (env : OsEnv) (dbi : DbImport) : Nat × TestDbResponse :=
  (200, test_database env dbi)

/-- The two response shapes `generate_ppt_ipb_ui` can produce. -/
inductive PptRouteResponse where
  | streaming (stream : BytesIO) (media_type : String) (headers : List (String × String))
  | jsonError (status : Nat) (content : List (String × String))
deriving DecidableEq

/-- `generate_ppt_ipb_ui` (lines 243-253). The `try` body's outcome is the
argument: `.ok stream` when `build_ipb_ui_presentation()` returned a buffer,
`.error e` when it raised an exception with text `e` (`str(e)`). On success
the buffer is streamed with the presentation media type and an attachment
`Content-Disposition`; on failure a 500 JSON object with key `error`. -/
def generate_ppt_ipb_ui (outcome : Except String BytesIO) : PptRouteResponse :=
  match outcome with
  | .ok stream =>
      .streaming stream
        "application/vnd.openxmlformats-officedocument.presentationml.presentation"
        [("Content-Disposition", "attachment; filename=Profil_IPB_dan_UI.pptx")]
  | .error e => .jsonError 500 [("error", e)]

/-! ### Helper lemmas -/

theorem strBytes_append (a b : String) : strBytes (a ++ b) = strBytes a ++ strBytes b := by
  simp [strBytes]

theorem addBulletsFrom_succ (bs : List String) : ∀ (tf : TextFrame) (i : Nat),
    addBulletsFrom tf (i + 1) bs = { tf with paragraphs := tf.paragraphs ++ bs.map bulletPara } := by
  induction bs with
  | nil => intro tf i; simp [addBulletsFrom]
  | cons b bs ih =>
      intro tf i
      rw [addBulletsFrom]
      have h : setBulletAt tf (i + 1) b
          = { tf with paragraphs := tf.paragraphs ++ [bulletPara b] } := rfl
      rw [h, ih]
      simp

theorem addColItems_closed (items : List String) : ∀ (tf : TextFrame),
    addColItems tf items = { tf with paragraphs := tf.paragraphs ++ items.map colItemPara } := by
  induction items with
  | nil => intro tf; simp [addColItems]
  | cons it items ih =>
      intro tf
      rw [addColItems, ih]
      simp

/-- The heading paragraph a column box ends up with: one bold 20-point run,
left alignment. -/
def colHeadPara (t : String) : Paragraph :=
  { runs := [{ text := t, font := { bold := some true, size := some (Pt 20) } }],
    alignment := some PP_ALIGN.LEFT }

theorem build_data_eq (now : String) :
    (build_ipb_ui_presentation now).data = serializePresentation (ipb_ui_slides now) := rfl

/-- The serialized bytes strictly before the embedded date line: the fixed
slides, then the closing slide's tags, title and text-box opening, up to and
including the literal date-line text that precedes the date itself. -/
def closingDatePre : List Nat :=
  pptxSignature ++ (ipb_ui_slides_fixed.map serializeSlide).flatten
    ++ ([4, 5] ++ strBytes "Terima kasih" ++ [5] ++ [6])
    ++ strBytes "Disusun otomatis pada "

theorem serialize_factors (now : String) :
    serializePresentation (ipb_ui_slides now) =
      closingDatePre ++ (strBytes now ++ [1, 2, 3]) := by
  simp [serializePresentation, ipb_ui_slides, closingDatePre, closingSlide,
    serializeSlide, serializeTextFrame, serializeParagraph, serializeRun,
    layoutTag, Paragraph.setText, strBytes_append, List.append_assoc]

/-! ### Claim theorems -/

/-- C1 (counterexample): the assembler does not produce 11 slides — at the
concrete generation date "12 Oktober 2025" the document it builds has a
different slide count. -/
theorem C1_counterexample : ¬ ((ipb_ui_slides "12 Oktober 2025").length = 11) := by
  decide

/-- C1 (amended): for every generation date, the assembler produces exactly
9 slides, in this order: 1 title slide; overview, admissions and faculty
bulleted slides for the first institution; overview and admissions bulleted
slides for the second institution (which gets no bulleted faculty slide);
two two-column faculty-breakdown slides for the second institution; and 1
closing slide. Layout index 0 = title, 1 = bulleted content, 5 = title only;
the third component counts the slide's added text boxes. -/
theorem C1_slide_sequence (now : String) :
    (ipb_ui_slides now).length = 9 ∧
    (ipb_ui_slides now).map (fun s => (layoutTag s.layout, s.title, s.textboxes.length)) =
      [ (0, "Profil IPB University & Universitas Indonesia", 0),
        (1, "IPB University – Ringkasan", 0),
        (1, "IPB – Jalur Masuk", 0),
        (1, "IPB – Fakultas & Sekolah", 0),
        (1, "Universitas Indonesia – Ringkasan", 0),
        (1, "UI – Jalur Masuk", 0),
        (5, "UI – Fakultas (Kesehatan & Saintek)", 2),
        (5, "UI – Fakultas (Soshum & Program Lain)", 2),
        (5, "Terima kasih", 1) ] := ⟨rfl, rfl⟩

/-- C2: for every environment and every behaviour of the optional database
handle (module missing, import failing otherwise, handle `None`, collection
listing raising, or succeeding), `test_database` returns normally with HTTP
status 200, and every failure is rendered as the corresponding descriptive
status string in the report's `database` field. -/
theorem C2_diagnostics_never_fail (env : OsEnv) (dbi : DbImport) :
    (test_database_route env dbi).1 = 200 ∧
    (test_database_route env dbi).2.database =
      (match dbi with
        | .importError => "❌ Database module not found (run enable-database first)"
        | .importOtherError e => "❌ Error: " ++ e.take 50
        | .dbNone => "⚠️  Available but not initialized"
        | .dbHandle _ (.ok _) => "✅ Connected & Working"
        | .dbHandle _ (.error e) => "⚠️  Connected but Error: " ++ e.take 50) := by
  refine ⟨rfl, ?_⟩
  cases dbi with
  | importError => rfl
  | importOtherError e => rfl
  | dbNone => rfl
  | dbHandle name listResult => cases listResult <;> rfl

/-- C3: for every environment and database behaviour, the `database_url`
field of the diagnostics response is "✅ Set" exactly when `DATABASE_URL` is
present and non-empty and "❌ Not Set" otherwise, and likewise
`database_name` for `DATABASE_NAME`; the quantification over `dbi` makes
this independent of whatever connection state was reached earlier. -/
theorem C3_env_flag_fields (env : OsEnv) (dbi : DbImport) :
    ((test_database env dbi).database_url
        = some (if envTruthy env.DATABASE_URL then "✅ Set" else "❌ Not Set")) ∧
    ((test_database env dbi).database_name
        = some (if envTruthy env.DATABASE_NAME then "✅ Set" else "❌ Not Set")) ∧
    (envTruthy env.DATABASE_URL = true ↔ ∃ s, env.DATABASE_URL = some s ∧ s ≠ "") ∧
    (envTruthy env.DATABASE_NAME = true ↔ ∃ s, env.DATABASE_NAME = some s ∧ s ≠ "") := by
  refine ⟨rfl, rfl, ?_, ?_⟩
  · cases h : env.DATABASE_URL <;> simp [envTruthy]
  · cases h : env.DATABASE_NAME <;> simp [envTruthy]

/-- C4: for every prior slide list, title and bullet list, `_add_bullets_slide`
appends exactly one bulleted-content slide whose content placeholder holds
exactly one empty paragraph when the list is empty, and otherwise exactly
one level-0 paragraph per bullet, texts in input order. -/
theorem C4_bullets_slide (prs : List Slide) (title : String) (bullets : List String) :
    _add_bullets_slide prs title bullets =
      prs ++ [{ layout := .titleAndContent, title := title,
                body := some { paragraphs :=
                  if bullets.isEmpty then [{}] else bullets.map bulletPara } }] := by
  cases bullets with
  | nil => rfl
  | cons b bs =>
      have e : _add_bullets_slide prs title (b :: bs)
          = prs ++ [{ layout := .titleAndContent, title := title,
                      body := some (addBulletsFrom { paragraphs := [bulletPara b] } (0 + 1) bs) }] := rfl
      rw [e, addBulletsFrom_succ]
      simp

/-- C5: `generate_ppt_ipb_ui` maps an exception raised by the assembly step
to an HTTP 500 JSON response whose body has key "error" bound to the
exception's text, and a successful assembly to a streaming response carrying
the buffer, the presentation media type and the attachment
`Content-Disposition` header naming `Profil_IPB_dan_UI.pptx`. -/
theorem C5_ppt_route (e : String) (bio : BytesIO) :
    generate_ppt_ipb_ui (.error e) = .jsonError 500 [("error", e)] ∧
    generate_ppt_ipb_ui (.ok bio) =
      .streaming bio
        "application/vnd.openxmlformats-officedocument.presentationml.presentation"
        [("Content-Disposition", "attachment; filename=Profil_IPB_dan_UI.pptx")] := ⟨rfl, rfl⟩

/-- C6: the byte streams of two invocations of `build_ipb_ui_presentation`
share a common prefix and suffix and differ only in the embedded
generation-date string: there are fixed bytes `pre` and `suf` such that each
stream is `pre ++ <date bytes> ++ suf`. -/
theorem C6_streams_differ_only_in_date (d1 d2 : String) :
    ∃ pre suf : List Nat,
      (build_ipb_ui_presentation d1).data = pre ++ strBytes d1 ++ suf ∧
      (build_ipb_ui_presentation d2).data = pre ++ strBytes d2 ++ suf := by
  refine ⟨closingDatePre, [1, 2, 3], ?_, ?_⟩ <;>
    rw [build_data_eq, serialize_factors, List.append_assoc]

/-- C7 (counterexample): at the concrete generation date "12 Oktober 2025"
the closing slide is not a title-only slide with a single centred text box
showing just the timestamp: its one text box's paragraph has no centre
alignment and its text carries the prefix "Disusun otomatis pada ". -/
theorem C7_counterexample :
    ¬ ((ipb_ui_slides "12 Oktober 2025").getLast?.map (fun s =>
          (s.layout,
           s.textboxes.map (fun b =>
             (b.tf.paragraphs.map Paragraph.alignment,
              b.tf.paragraphs.map Paragraph.text)))) =
        some (LayoutKind.titleOnly, [([some PP_ALIGN.CENTER], ["12 Oktober 2025"])])) := by
  decide

/-- C7 (amended): for every generation date, the closing slide uses the
title-only layout, titled "Terima kasih", and contains exactly one text box,
at the fixed position 1.2in/2.2in sized 8in by 3in, holding one paragraph
with default (left) alignment, an 18-point paragraph font, and the text
"Disusun otomatis pada " followed by the generation date. -/
theorem C7_closing_slide (now : String) :
    (ipb_ui_slides now).getLast? =
      some { layout := .titleOnly, title := "Terima kasih",
             textboxes := [
               { left := Inches100 120, top := Inches100 220,
                 width := Inches100 800, height := Inches100 300,
                 tf := { paragraphs := [
                   { runs := [{ text := "Disusun otomatis pada " ++ now }],
                     font := { size := some (Pt 18) } } ] } } ] } := rfl

/-- C8: for every generation date, the buffer returned by
`build_ipb_ui_presentation` is positioned at offset 0, is non-empty, and its
first four bytes are the binary package signature of the presentation
format. -/
theorem C8_buffer_ready (now : String) :
    (build_ipb_ui_presentation now).pos = 0 ∧
    (build_ipb_ui_presentation now).data ≠ [] ∧
    (build_ipb_ui_presentation now).data.take 4 = pptxSignature := by
  refine ⟨rfl, ?_, rfl⟩
  rw [build_data_eq, serializePresentation]
  simp [pptxSignature]

/-- C9: for every request, whatever its query parameters and headers, the
root route answers the fixed JSON object with message "Hello from FastAPI
Backend!" and the hello route the one with message "Hello from the backend
API!", each with status 200. -/
theorem C9_greeting_routes (req : Request) :
    read_root req = (200, [("message", "Hello from FastAPI Backend!")]) ∧
    hello req = (200, [("message", "Hello from the backend API!")]) := ⟨rfl, rfl⟩

/-- C10: for every input, `_add_two_column_slide` appends one title-only
slide with exactly two text boxes; each box's frame holds `1 + len(items)`
paragraphs: first the heading paragraph (one bold 20-point run, left
aligned), then one level-0 16-point paragraph per item, its text the item
prefixed with "• ", in input order — with an empty item list a box keeps
only the heading paragraph. -/
theorem C10_two_column_slide (prs : List Slide) (title : String)
    (left_title : String) (left_items : List String)
    (right_title : String) (right_items : List String) :
    _add_two_column_slide prs title left_title left_items right_title right_items =
      prs ++ [{ layout := .titleOnly, title := title,
                textboxes := [
                  { left := Inches100 70, top := Inches100 160,
                    width := Inches100 430, height := Inches100 500,
                    tf := { word_wrap := some true,
                            paragraphs := colHeadPara left_title :: left_items.map colItemPara } },
                  { left := Inches100 520, top := Inches100 160,
                    width := Inches100 430, height := Inches100 500,
                    tf := { word_wrap := some true,
                            paragraphs := colHeadPara right_title :: right_items.map colItemPara } } ] }] := by
  have e : _add_two_column_slide prs title left_title left_items right_title right_items
      = prs ++ [{ layout := .titleOnly, title := title,
                  textboxes := [
                    { left := Inches100 70, top := Inches100 160,
                      width := Inches100 430, height := Inches100 500,
                      tf := addColItems
                        { paragraphs := [colHeadPara left_title], word_wrap := some true }
                        left_items },
                    { left := Inches100 520, top := Inches100 160,
                      width := Inches100 430, height := Inches100 500,
                      tf := addColItems
                        { paragraphs := [colHeadPara right_title], word_wrap := some true }
                        right_items } ] }] := rfl
  rw [e, addColItems_closed, addColItems_closed]
  simp
